import Mathlib

/-!
Verification of the nyat NAT-mapper core: a shallow embedding of the STUN
response parser (`src/nyat-core/src/stun.rs`), the local socket factory
(`src/nyat-core/src/net.rs`) and the TCP/UDP mapping controllers
(`src/nyat-core/src/mapper/{tcp,udp}.rs`), together with theorems about
change notification, retry handling, and the STUN wire format.

Bytes are modelled as `Nat` (values below 256 where byte-hood matters is
stated as a hypothesis), byte buffers as `List Nat`, and `std::io::Error`
values as `Nat` error codes.
-/

namespace Nyat

/-! ## Byte-level helpers -/

/-- `u16::from_be_bytes [hi, lo]` for byte values. -/
def u16be (hi lo : Nat) : Nat := hi * 256 + lo

/-- `u16::to_be_bytes`: big-endian encoding of a value below 2^16. -/
def be16 (n : Nat) : List Nat := [n / 256, n % 256]

/-- `(n + 3) & !3` on `usize`: round up to a multiple of 4
(for `n + 3 < 2^64` this equals `(n + 3) / 4 * 4`). -/
def align4 (n : Nat) : Nat := (n + 3) / 4 * 4

/-- Rust slice indexing `data.get(a..b)`: `some` of the sub-slice when
`a ≤ b ∧ b ≤ data.len()`, otherwise `none`. -/
def sliceGet (data : List Nat) (a b : Nat) : Option (List Nat) :=
  if a ≤ b ∧ b ≤ data.length then some ((data.drop a).take (b - a)) else none

/-! ## Address and error model -/

/-- `std::net::IpAddr`: a V4 address is its four octets, a V6 address its
sixteen octets (as produced by `Ipv4Addr::from` / `Ipv6Addr::from`). -/
inductive IpAddr
  | v4 (octets : List Nat)
  | v6 (octets : List Nat)
deriving DecidableEq, Repr

/-- `std::net::SocketAddr` as built by `SocketAddr::new(ip, port)`. -/
structure SocketAddr where
  ip : IpAddr
  port : Nat
deriving DecidableEq, Repr

/-- `error.rs::StunError`; the `io::Error` payload of `Network` is an error code. -/
inductive StunError
  | Malformed
  | ResponseTooLarge
  | Network (io : Nat)
  | TransactionIdMismatch
deriving DecidableEq, Repr

/-- `error.rs::DnsError`. -/
inductive DnsError
  | Resolve (io : Nat)
  | AddrNotFound
deriving DecidableEq, Repr

/-- `error.rs::Error`, the top-level error enum. -/
inductive Error
  | StunMalformed
  | StunResponseTooLarge
  | StunNetwork (io : Nat)
  | StunTransactionIdMismatch
  | DnsResolve (io : Nat)
  | AddrNotFound
  | Socket (io : Nat)
  | Connection (io : Nat)
  | Keepalive (io : Nat)
deriving DecidableEq, Repr

/-- `impl From<StunError> for Error`. -/
def StunError.toError : StunError → Error
  | .Malformed => .StunMalformed
  | .ResponseTooLarge => .StunResponseTooLarge
  | .Network io => .StunNetwork io
  | .TransactionIdMismatch => .StunTransactionIdMismatch

/-- `impl From<DnsError> for Error`. -/
def DnsError.toError : DnsError → Error
  | .Resolve io => .DnsResolve io
  | .AddrNotFound => .AddrNotFound

/-! ## STUN constants (`stun.rs`) -/

def MAGIC_COOKIE : Nat := 0x2112A442
def HEADER_SIZE : Nat := 20
def MAX_BODY_SIZE : Nat := 2048
def ATTR_MAPPED_ADDRESS : Nat := 0x0001
def ATTR_XOR_MAPPED_ADDRESS : Nat := 0x0020
def FAMILY_IPV4 : Nat := 0x01
def FAMILY_IPV6 : Nat := 0x02

/-- `MAGIC_COOKIE.to_be_bytes()`. -/
def cookieBytes : List Nat := [0x21, 0x12, 0xA4, 0x42]

/-! ## STUN response parsing (`stun.rs`) -/

/-- `stun.rs::parse_xor_mapped`: decode a XOR-MAPPED-ADDRESS attribute value.
The port is XORed with the high 16 bits of the magic cookie; a V4 address with
the 4 cookie bytes; a V6 address with cookie ‖ transaction id. -/
def parse_xor_mapped (value txId : List Nat) : Except StunError SocketAddr :=
  if value.length < 8 then .error .Malformed
  else
    let family := value.getD 1 0
    let port := u16be (value.getD 2 0) (value.getD 3 0) ^^^ 0x2112
    if family = FAMILY_IPV4 then
      let b := List.zipWith Nat.xor ((value.drop 4).take 4) cookieBytes
      .ok ⟨.v4 b, port⟩
    else if family = FAMILY_IPV6 ∧ 20 ≤ value.length then
      let key := cookieBytes ++ txId
      let b := List.zipWith Nat.xor ((value.drop 4).take 16) key
      .ok ⟨.v6 b, port⟩
    else .error .Malformed

/-- `stun.rs::parse_mapped`: decode a MAPPED-ADDRESS attribute value
(same layout, no XOR step). -/
def parse_mapped (value : List Nat) : Except StunError SocketAddr :=
  if value.length < 8 then .error .Malformed
  else
    let family := value.getD 1 0
    let port := u16be (value.getD 2 0) (value.getD 3 0)
    if family = FAMILY_IPV4 then
      .ok ⟨.v4 [value.getD 4 0, value.getD 5 0, value.getD 6 0, value.getD 7 0], port⟩
    else if family = FAMILY_IPV6 ∧ 20 ≤ value.length then
      .ok ⟨.v6 ((value.drop 4).take 16), port⟩
    else .error .Malformed

/-- The attribute walk of `parse_response` (`while offset + 4 <= body.len()`),
with an explicit fuel argument; each iteration advances `offset` by at least 4,
so any `fuel ≥ body.length + 1` is sufficient (the loop runs at most
`body.length / 4 + 1` times). -/
def attrsLoop (body txId : List Nat) : Nat → Nat → Except StunError SocketAddr
  | 0, _ => .error .Malformed
  | fuel + 1, offset =>
    if offset + 4 ≤ body.length then
      let attrType := u16be (body.getD offset 0) (body.getD (offset + 1) 0)
      let attrLen := u16be (body.getD (offset + 2) 0) (body.getD (offset + 3) 0)
      match sliceGet body (offset + 4) (offset + 4 + attrLen) with
      | none => .error .Malformed
      | some value =>
        if attrType = ATTR_XOR_MAPPED_ADDRESS then parse_xor_mapped value txId
        else if attrType = ATTR_MAPPED_ADDRESS then parse_mapped value
        else attrsLoop body txId fuel (offset + 4 + align4 attrLen)
    else .error .Malformed

/-- `stun.rs::parse_response`: header checks, then the TLV attribute walk. -/
def parse_response (data txId : List Nat) : Except StunError SocketAddr :=
  if data.length < HEADER_SIZE then .error .Malformed
  else if (data.drop 8).take 12 ≠ txId then .error .TransactionIdMismatch
  else
    let bodyLen := u16be (data.getD 2 0) (data.getD 3 0)
    match sliceGet data HEADER_SIZE (HEADER_SIZE + bodyLen) with
    | none => .error .Malformed
    | some body => attrsLoop body txId (body.length + 1) 0

/-- `stun.rs::tcp_socket_addr`, as a function of the byte stream `resp`
the server sends after the request: read exactly 20 header bytes, reject
declared body lengths above `MAX_BODY_SIZE` as `ResponseTooLarge`, read
exactly the declared body, and parse header ++ body. A short stream makes
`read_exact` fail with an unexpected-eof I/O error (`Network 0`). -/
def tcp_socket_addr (resp txId : List Nat) : Except StunError SocketAddr :=
  if resp.length < HEADER_SIZE then .error (.Network 0)
  else
    let header := resp.take HEADER_SIZE
    let bodyLen := u16be (header.getD 2 0) (header.getD 3 0)
    if bodyLen > MAX_BODY_SIZE then .error .ResponseTooLarge
    else if resp.length < HEADER_SIZE + bodyLen then .error (.Network 0)
    else parse_response (resp.take (HEADER_SIZE + bodyLen)) txId

/-- `stun.rs::udp_socket_addr`, as a function of the datagram the server
sends back: `recv` delivers at most `HEADER_SIZE + MAX_BODY_SIZE` bytes
(the buffer size; a longer datagram is truncated), short datagrams are
`Malformed`, and the received bytes go to `parse_response`. -/
def udp_socket_addr (datagram txId : List Nat) : Except StunError SocketAddr :=
  let len := min datagram.length (HEADER_SIZE + MAX_BODY_SIZE)
  if len < HEADER_SIZE then .error .Malformed
  else parse_response (datagram.take len) txId

/-! ## Spec-side STUN encoders (test harness for round-trip / parsing claims) -/

/-- Encode one TLV attribute: `type(u16 BE) | len(u16 BE) | value | zero
padding to a 4-byte boundary`. -/
def encAttr (t : Nat) (v : List Nat) : List Nat :=
  be16 t ++ be16 v.length ++ v ++ List.replicate (align4 v.length - v.length) 0

/-- Encode an attribute list as a response body. -/
def encAttrs (attrs : List (Nat × List Nat)) : List Nat :=
  (attrs.map fun p => encAttr p.1 p.2).flatten

/-- The first attribute whose type is XOR-MAPPED-ADDRESS or MAPPED-ADDRESS
decides the parse result; no such attribute means `Malformed`. -/
def parseAttrs (attrs : List (Nat × List Nat)) (txId : List Nat) :
    Except StunError SocketAddr :=
  match attrs with
  | [] => .error .Malformed
  | (t, v) :: rest =>
    if t = ATTR_XOR_MAPPED_ADDRESS then parse_xor_mapped v txId
    else if t = ATTR_MAPPED_ADDRESS then parse_mapped v
    else parseAttrs rest txId

/-- Build a full Binding Success response carrying the given attributes,
with the transaction id `txId` and a correct declared body length. -/
def mkResponse (txId : List Nat) (attrs : List (Nat × List Nat)) : List Nat :=
  [0x01, 0x01] ++ be16 (encAttrs attrs).length ++ cookieBytes ++ txId ++ encAttrs attrs

/-- Build a XOR-MAPPED-ADDRESS attribute value from `(ip, port, txId)` per the
spec: the port XORed with the high 16 bits of the magic cookie, a V4 address
XORed with the 4 cookie bytes, a V6 address XORed with cookie ‖ txId. -/
def buildXorMapped (ip : IpAddr) (port : Nat) (txId : List Nat) : List Nat :=
  match ip with
  | .v4 octets => [0, FAMILY_IPV4] ++ be16 (port ^^^ 0x2112)
      ++ List.zipWith Nat.xor octets cookieBytes
  | .v6 octets => [0, FAMILY_IPV6] ++ be16 (port ^^^ 0x2112)
      ++ List.zipWith Nat.xor octets (cookieBytes ++ txId)

/-! ## Local endpoint factory (`net.rs`) -/

/-- `libc::IFNAMSIZ` on Linux. -/
def IFNAMSIZ : Nat := 16

/-- `net.rs::LocalAddr`: local bind configuration. The interface field stores
the 16-byte zero-padded buffer together with the original name length. -/
structure LocalAddr where
  local_addr : SocketAddr
  fmark : Option Nat
  iface : Option (List Nat × Nat)
  reuse_port : Bool
deriving DecidableEq, Repr

/-- `net.rs::LocalAddr::new`. -/
def LocalAddr.new (addr : SocketAddr) : LocalAddr :=
  ⟨addr, none, none, false⟩

/-- Outcome of `LocalAddr::with_iface`: the Rust function `assert!`s that the
name fits `IFNAMSIZ`, so an over-long name is a runtime panic, not an error
return. -/
inductive IfaceResult
  | ok (l : LocalAddr)
  | panicked
deriving DecidableEq, Repr

/-- `net.rs::LocalAddr::with_iface`: copy the name into a zero-filled 16-byte
buffer when it fits, panic (via `assert!`) otherwise. -/
def LocalAddr.with_iface (l : LocalAddr) (iface : List Nat) : IfaceResult :=
  if iface.length ≤ IFNAMSIZ then
    .ok { l with iface := some (iface ++ List.replicate (16 - iface.length) 0, iface.length) }
  else .panicked

/-- Kind of a bind I/O error (`io::ErrorKind`): only `AddrInUse` is
distinguished by `LocalAddr::socket`. -/
inductive IoErrKind
  | addrInUse
  | other
deriving DecidableEq, Repr

/-- An `std::io::Error`: its kind plus an error code. -/
structure IoErr where
  kind : IoErrKind
  code : Nat
deriving DecidableEq, Repr

/-- Environment for one `LocalAddr::socket` call: the outcome of the first
`bind`, of `force_reuse_port`, and of the retried `bind` (`none` = success). -/
structure BindEnv where
  first : Option IoErr
  reclaim : Option IoErr
  second : Option IoErr
deriving DecidableEq, Repr

/-- Trace of the bind portion of `LocalAddr::socket`: the result, how many
times `force_reuse_port` ran, and how many `bind` calls were made. -/
structure BindTrace where
  result : Except IoErr Unit
  reclaims : Nat
  binds : Nat
deriving Repr

/-- The bind logic of `net.rs::LocalAddr::socket` (reuse_port build): on a
first-bind failure, reclaim and retry once exactly when the failure kind is
`AddrInUse` and the force-reuse flag is set; propagate every other failure. -/
def socketBind (reuse_port : Bool) (env : BindEnv) : BindTrace :=
  match env.first with
  | none => ⟨.ok (), 0, 1⟩
  | some e =>
    if reuse_port ∧ e.kind = .addrInUse then
      match env.reclaim with
      | some re => ⟨.error re, 1, 1⟩
      | none =>
        match env.second with
        | none => ⟨.ok (), 1, 2⟩
        | some e2 => ⟨.error e2, 1, 2⟩
    else ⟨.error e, 0, 1⟩

/-! ## Mapping controllers (`mapper/udp.rs`, `mapper/tcp.rs`)

The async loops are embedded as recursive functions over scripts of I/O
outcomes supplied by the environment; a run whose script ends before the
loop returns is reported as still running (`result = none`).  Each model
records the handler invocations, the addresses discovered by successful
STUN probes, the per-tick actions and the number of backoff sleeps. -/

/-- `RETRY_LTD` in both mappers. -/
def RETRY_LTD : Nat := 5

/-- The UDP keepalive payload `b"nya"`. -/
def NYA : List Nat := [110, 121, 97]

/-- The guard `matches!(e, Error::Socket(_))` in `UdpMapper::run`. -/
def Error.isSocket : Error → Bool
  | .Socket _ => true
  | _ => false

/-- Modelled from the spec: `Error::is_recoverable` is called by
`TcpMapper::run` but its definition is not among the provided sources; per
the spec's error taxonomy (§7), `Socket` errors are fatal and every other
kind (DNS, connection, STUN, keepalive) is recoverable. -/
def Error.isRecoverable : Error → Bool
  | .Socket _ => false
  | _ => true

/-- Environment outcomes for one tick of `UdpMapper::keepalive`: the result
the STUN probe would have (`probe`) and the result the keepalive send would
have (`send`); the loop consults the one matching the action it takes. -/
structure TickOutcome where
  probe : Except StunError SocketAddr
  send : Except Nat Unit
deriving Repr

/-- Live state of the inner UDP keepalive loop. -/
structure InnerState where
  cnt : Nat
  consec : Nat
  cur : Option SocketAddr
deriving DecidableEq, Repr

/-- What one tick of `UdpMapper::keepalive` did: a STUN probe on the STUN
socket, or a send of `payload` to `target` on the keepalive socket. -/
inductive KaAction
  | probe
  | send (payload : List Nat) (target : SocketAddr)
deriving DecidableEq, Repr

/-- One tick of the loop in `UdpMapper::keepalive` (lines 92–123): increment
`cnt`; when it reaches `check_per_tick`, reset it and probe, otherwise send
`b"nya"` to the STUN remote.  Returns the new state, the action taken, the
handler invocation (if any), the discovered address (if any), and the error
returned from `keepalive` (if any). -/
def udpTick (cpt : Nat) (stunAddr : SocketAddr) (st : InnerState) (o : TickOutcome) :
    InnerState × KaAction × Option SocketAddr × Option SocketAddr × Option Error :=
  let cnt := st.cnt + 1
  if cnt ≥ cpt then
    match o.probe with
    | .ok pub =>
      if st.cur ≠ some pub then
        (⟨0, 0, some pub⟩, .probe, some pub, some pub, none)
      else
        (⟨0, 0, st.cur⟩, .probe, none, some pub, none)
    | .error e =>
      (⟨0, st.consec + 1, st.cur⟩, .probe, none, none,
        if st.consec + 1 ≥ RETRY_LTD then some e.toError else none)
  else
    match o.send with
    | .ok _ => (⟨cnt, 0, st.cur⟩, .send NYA stunAddr, none, none, none)
    | .error io =>
      (⟨cnt, st.consec + 1, st.cur⟩, .send NYA stunAddr, none, none,
        if st.consec + 1 ≥ RETRY_LTD then some (Error.Keepalive io) else none)

/-- Observable outcome of the inner UDP loop. -/
structure InnerOut where
  calls : List SocketAddr
  discoveries : List SocketAddr
  actions : List KaAction
  result : Option Error
  final : InnerState
deriving Repr

/-- The steady-state loop of `UdpMapper::keepalive`, driven by a script of
tick outcomes. -/
def udpLoop (cpt : Nat) (stunAddr : SocketAddr) (st : InnerState) :
    List TickOutcome → InnerOut
  | [] => ⟨[], [], [], none, st⟩
  | o :: rest =>
    let (st', act, call?, disc?, err?) := udpTick cpt stunAddr st o
    match err? with
    | some e => ⟨call?.toList, disc?.toList, [act], some e, st'⟩
    | none =>
      let out := udpLoop cpt stunAddr st' rest
      ⟨call?.toList ++ out.calls, disc?.toList ++ out.discoveries,
        act :: out.actions, out.result, out.final⟩

/-- `UdpMapper::keepalive` (lines 75–125): the initial STUN probe (whose
error is propagated directly), the compare-and-notify, then the loop with
`cnt = 0` and `consecutive_failures = 0`. -/
def udpKeepalive (cpt : Nat) (stunAddr : SocketAddr) (cur : Option SocketAddr)
    (initProbe : Except StunError SocketAddr) (ticks : List TickOutcome) : InnerOut :=
  match initProbe with
  | .error e => ⟨[], [], [], some e.toError, ⟨0, 0, cur⟩⟩
  | .ok pub =>
    let out := udpLoop cpt stunAddr ⟨0, 0, some pub⟩ ticks
    ⟨(if cur ≠ some pub then [pub] else []) ++ out.calls, pub :: out.discoveries,
      out.actions, out.result, out.final⟩

/-- Environment outcomes for one outer iteration of `UdpMapper::run`: the
DNS resolution of the STUN remote, the datagram-connect of the STUN socket,
the initial probe, and the tick outcomes of the inner loop. -/
structure OuterEntry where
  dns : Except DnsError SocketAddr
  conn : Except Nat Unit
  initProbe : Except StunError SocketAddr
  ticks : List TickOutcome
deriving Repr

/-- Observable outcome of a whole mapper run.  `result = none` means the
script ended with the loop still running; `final` is then the pair
(`current_ip`, outer retry counter) at that point. -/
structure RunOut where
  calls : List SocketAddr
  discoveries : List SocketAddr
  sleeps : Nat
  result : Option Error
  final : Option SocketAddr × Nat
deriving Repr

/-- The outer loop of `UdpMapper::run` (lines 45–72): DNS and connect
failures are `?`-propagated out of `run` immediately; an error from
`keepalive` returns at once when it is a `Socket` error, otherwise it
increments `retry_cnt`, returns the error once the counter reaches
`RETRY_LTD`, and sleeps 5 s before re-running setup.  `retry_cnt` is reset
only by the unreachable `Ok(())` arm, so never. -/
def udpRunLoop (cpt : Nat) (cur : Option SocketAddr) (retry : Nat) :
    List OuterEntry → RunOut
  | [] => ⟨[], [], 0, none, (cur, retry)⟩
  | e :: rest =>
    match e.dns with
    | .error de => ⟨[], [], 0, some de.toError, (cur, retry)⟩
    | .ok stunAddr =>
      match e.conn with
      | .error io => ⟨[], [], 0, some (Error.Connection io), (cur, retry)⟩
      | .ok _ =>
        let inner := udpKeepalive cpt stunAddr cur e.initProbe e.ticks
        match inner.result with
        | none => ⟨inner.calls, inner.discoveries, 0, none, (inner.final.cur, retry)⟩
        | some err =>
          if err.isSocket then
            ⟨inner.calls, inner.discoveries, 0, some err, (inner.final.cur, retry)⟩
          else
            if retry + 1 ≥ RETRY_LTD then
              ⟨inner.calls, inner.discoveries, 0, some err, (inner.final.cur, retry + 1)⟩
            else
              let out := udpRunLoop cpt inner.final.cur (retry + 1) rest
              ⟨inner.calls ++ out.calls, inner.discoveries ++ out.discoveries,
                out.sleeps + 1, out.result, out.final⟩

/-- `UdpMapper::run` (lines 27–73): the two UDP socket constructions are
fatal on failure (`Error::Socket`, no handler call, no sleep), then the
outer loop starts from `current_ip = None`, `retry_cnt = 0`. -/
def udpRun (cpt : Nat) (socketSt socketKa : Except Nat Unit)
    (script : List OuterEntry) : RunOut :=
  match socketSt with
  | .error io => ⟨[], [], 0, some (.Socket io), (none, 0)⟩
  | .ok _ =>
    match socketKa with
    | .error io => ⟨[], [], 0, some (.Socket io), (none, 0)⟩
    | .ok _ => udpRunLoop cpt none 0 script

/-- Environment outcome of one outer iteration of `TcpMapper::run`: either
the reactor setup succeeded and discovered `pub`, after which the keepalive
session eventually exits (its result is discarded by `let _ =`), or setup
failed with `e`. -/
inductive TcpSetup
  | ok (pub : SocketAddr)
  | err (e : Error)
deriving Repr

/-- The loop of `TcpMapper::run` (lines 35–58): on setup success reset
`retry_cnt`, compare-and-notify, run keepalive (result discarded), sleep,
loop; on a non-recoverable error return it at once; on a recoverable error
increment `retry_cnt`, return the error at `RETRY_LTD`, else sleep and
loop. -/
def tcpRunLoop (cur : Option SocketAddr) (retry : Nat) : List TcpSetup → RunOut
  | [] => ⟨[], [], 0, none, (cur, retry)⟩
  | .ok pub :: rest =>
    let out := tcpRunLoop (some pub) 0 rest
    ⟨(if cur ≠ some pub then [pub] else []) ++ out.calls, pub :: out.discoveries,
      out.sleeps + 1, out.result, out.final⟩
  | .err e :: rest =>
    if ¬ e.isRecoverable then ⟨[], [], 0, some e, (cur, retry)⟩
    else if retry + 1 ≥ RETRY_LTD then ⟨[], [], 0, some e, (cur, retry + 1)⟩
    else
      let out := tcpRunLoop cur (retry + 1) rest
      ⟨out.calls, out.discoveries, out.sleeps + 1, out.result, out.final⟩

/-- `TcpMapper::run`: start from `current_ip = None`, `retry_cnt = 0`. -/
def tcpRun (script : List TcpSetup) : RunOut := tcpRunLoop none 0 script

/-- The change-notification filter: keep an address exactly when it differs
from the last value reported (initially `cur`). -/
def changes (cur : Option SocketAddr) : List SocketAddr → List SocketAddr
  | [] => []
  | a :: rest => if cur ≠ some a then a :: changes (some a) rest else changes (some a) rest

/-- The last element of a discovery list, or `cur` if there is none: the
value of `current_ip` after processing the list. -/
def lastOr (cur : Option SocketAddr) : List SocketAddr → Option SocketAddr
  | [] => cur
  | a :: rest => lastOr (some a) rest

/-! ## Helper lemmas about `changes` and `lastOr` -/

lemma lastOr_append (cur : Option SocketAddr) (l1 l2 : List SocketAddr) :
    lastOr cur (l1 ++ l2) = lastOr (lastOr cur l1) l2 := by
  induction l1 generalizing cur with
  | nil => simp [lastOr]
  | cons a l ih => simp [lastOr, ih]

lemma changes_append (cur : Option SocketAddr) (l1 l2 : List SocketAddr) :
    changes cur (l1 ++ l2) = changes cur l1 ++ changes (lastOr cur l1) l2 := by
  induction l1 generalizing cur with
  | nil => simp [changes, lastOr]
  | cons a l ih =>
    by_cases h : cur ≠ some a <;> simp [changes, lastOr, h, ih]

lemma changes_chain (l : List SocketAddr) :
    ∀ cur, List.Chain' Ne (changes cur l) ∧
      ∀ a, (changes cur l).head? = some a → cur ≠ some a := by
  induction l with
  | nil => intro cur; exact ⟨List.chain'_nil, by simp [changes]⟩
  | cons a l ih =>
    intro cur
    by_cases h : cur ≠ some a
    · simp only [changes, if_pos h]
      refine ⟨List.chain'_cons'.mpr ⟨?_, (ih (some a)).1⟩, ?_⟩
      · intro b hb
        have hne := (ih (some a)).2 b hb
        exact fun hab => hne (by rw [hab])
      · intro b hb
        simp only [List.head?_cons, Option.some.injEq] at hb
        rw [← hb]
        exact h
    · simp only [changes, if_neg h]
      push_neg at h
      refine ⟨(ih (some a)).1, ?_⟩
      intro b hb
      rw [h]
      exact (ih (some a)).2 b hb

/-! ## Helper lemmas about the UDP tick -/

lemma udpTick_act (cpt : Nat) (sa : SocketAddr) (st : InnerState) (o : TickOutcome) :
    (udpTick cpt sa st o).2.1 = if st.cnt + 1 ≥ cpt then .probe else .send NYA sa := by
  unfold udpTick
  by_cases h : st.cnt + 1 ≥ cpt
  · simp only [ge_iff_le, if_pos h]
    cases o.probe with
    | ok pub => by_cases hc : st.cur ≠ some pub <;> simp [hc]
    | error e => simp
  · simp only [ge_iff_le, if_neg h]
    cases o.send <;> simp [h]

lemma udpTick_cnt (cpt : Nat) (sa : SocketAddr) (st : InnerState) (o : TickOutcome) :
    (udpTick cpt sa st o).1.cnt = if st.cnt + 1 ≥ cpt then 0 else st.cnt + 1 := by
  unfold udpTick
  by_cases h : st.cnt + 1 ≥ cpt
  · simp only [ge_iff_le, if_pos h]
    cases o.probe with
    | ok pub => by_cases hc : st.cur ≠ some pub <;> simp [hc]
    | error e => simp
  · simp only [ge_iff_le, if_neg h]
    cases o.send <;> simp [h]

lemma udpTick_notify (cpt : Nat) (sa : SocketAddr) (st : InnerState) (o : TickOutcome) :
    ((udpTick cpt sa st o).2.2.1).toList
        = changes st.cur ((udpTick cpt sa st o).2.2.2.1).toList ∧
    (udpTick cpt sa st o).1.cur = lastOr st.cur ((udpTick cpt sa st o).2.2.2.1).toList := by
  unfold udpTick
  by_cases h : st.cnt + 1 ≥ cpt
  · simp only [ge_iff_le, if_pos h]
    cases o.probe with
    | ok pub =>
      by_cases hc : st.cur ≠ some pub
      · simp [hc, changes, lastOr]
      · push_neg at hc
        simp [hc, changes, lastOr]
    | error e => simp [changes, lastOr]
  · simp only [ge_iff_le, if_neg h]
    cases o.send <;> simp [changes, lastOr]

lemma udpLoop_notify (cpt : Nat) (sa : SocketAddr) :
    ∀ (ticks : List TickOutcome) (st : InnerState),
      (udpLoop cpt sa st ticks).calls
        = changes st.cur (udpLoop cpt sa st ticks).discoveries ∧
      (udpLoop cpt sa st ticks).final.cur
        = lastOr st.cur (udpLoop cpt sa st ticks).discoveries := by
  intro ticks
  induction ticks with
  | nil => intro st; simp [udpLoop, changes, lastOr]
  | cons o rest ih =>
    intro st
    have htick := udpTick_notify cpt sa st o
    rcases hu : udpTick cpt sa st o with ⟨st', act, call?, disc?, err?⟩
    rw [hu] at htick
    simp only at htick
    cases err? with
    | some e =>
      simp only [udpLoop, hu]
      exact ⟨htick.1, htick.2⟩
    | none =>
      have hrest := ih st'
      simp only [udpLoop, hu]
      constructor
      · rw [changes_append, ← htick.1, ← htick.2, hrest.1]
      · rw [lastOr_append, ← htick.2, hrest.2]

lemma udpKeepalive_notify (cpt : Nat) (sa : SocketAddr) (cur : Option SocketAddr)
    (initProbe : Except StunError SocketAddr) (ticks : List TickOutcome) :
    (udpKeepalive cpt sa cur initProbe ticks).calls
      = changes cur (udpKeepalive cpt sa cur initProbe ticks).discoveries ∧
    (udpKeepalive cpt sa cur initProbe ticks).final.cur
      = lastOr cur (udpKeepalive cpt sa cur initProbe ticks).discoveries := by
  cases initProbe with
  | error e => simp [udpKeepalive, changes, lastOr]
  | ok pub =>
    have h := udpLoop_notify cpt sa ticks ⟨0, 0, some pub⟩
    simp only [udpKeepalive]
    constructor
    · rw [h.1]
      by_cases hc : cur ≠ some pub <;> simp [changes, hc]
    · rw [h.2]
      simp [lastOr]

lemma udpRunLoop_notify (cpt : Nat) :
    ∀ (script : List OuterEntry) (cur : Option SocketAddr) (retry : Nat),
      (udpRunLoop cpt cur retry script).calls
        = changes cur (udpRunLoop cpt cur retry script).discoveries := by
  intro script
  induction script with
  | nil => intro cur retry; simp [udpRunLoop, changes]
  | cons e rest ih =>
    intro cur retry
    unfold udpRunLoop
    cases hdns : e.dns with
    | error de => simp [changes]
    | ok sa =>
      cases hconn : e.conn with
      | error io => simp [changes]
      | ok u =>
        have hk := udpKeepalive_notify cpt sa cur e.initProbe e.ticks
        cases hres : (udpKeepalive cpt sa cur e.initProbe e.ticks).result with
        | none =>
          simp only [hres]
          simpa using hk.1
        | some err =>
          simp only [hres]
          by_cases hsock : err.isSocket = true
          · rw [if_pos hsock]
            simpa using hk.1
          · rw [if_neg hsock]
            by_cases hlim : retry + 1 ≥ RETRY_LTD
            · rw [if_pos hlim]
              simpa using hk.1
            · rw [if_neg hlim]
              simp only
              rw [changes_append, ← hk.1, ← hk.2, ih]

lemma udpRunLoop_retry_monotone (cpt : Nat) :
    ∀ (script : List OuterEntry) (cur : Option SocketAddr) (retry : Nat),
      retry ≤ (udpRunLoop cpt cur retry script).final.2 := by
  intro script
  induction script with
  | nil => intro cur retry; simp [udpRunLoop]
  | cons e rest ih =>
    intro cur retry
    unfold udpRunLoop
    cases hdns : e.dns with
    | error de => simp
    | ok sa =>
      cases hconn : e.conn with
      | error io => simp
      | ok u =>
        cases hres : (udpKeepalive cpt sa cur e.initProbe e.ticks).result with
        | none =>
          simp only [hres]
          simp
        | some err =>
          simp only [hres]
          by_cases hsock : err.isSocket = true
          · rw [if_pos hsock]
          · rw [if_neg hsock]
            by_cases hlim : retry + 1 ≥ RETRY_LTD
            · rw [if_pos hlim]
              simp
            · rw [if_neg hlim]
              have hih := ih (udpKeepalive cpt sa cur e.initProbe e.ticks).final.cur (retry + 1)
              show retry ≤ (udpRunLoop cpt
                  (udpKeepalive cpt sa cur e.initProbe e.ticks).final.cur (retry + 1) rest).final.2
              omega

lemma tcpRunLoop_notify :
    ∀ (script : List TcpSetup) (cur : Option SocketAddr) (retry : Nat),
      (tcpRunLoop cur retry script).calls
        = changes cur (tcpRunLoop cur retry script).discoveries := by
  intro script
  induction script with
  | nil => intro cur retry; simp [tcpRunLoop, changes]
  | cons s rest ih =>
    intro cur retry
    cases s with
    | ok pub =>
      simp only [tcpRunLoop]
      by_cases hc : cur ≠ some pub <;> simp [changes, hc, ih]
    | err e =>
      simp only [tcpRunLoop]
      by_cases hr : ¬ (e.isRecoverable = true)
      · rw [if_pos hr]
        simp [changes]
      · rw [if_neg hr]
        by_cases hl : retry + 1 ≥ RETRY_LTD
        · rw [if_pos hl]
          simp [changes]
        · rw [if_neg hl]
          simpa using ih cur (retry + 1)

/-! ## Theorems -/

/-- Claim C5: a failure to construct or bind a socket makes `run` return the
`Socket` error immediately — no handler call, no backoff sleep, no setup
retry — and after that return no further handler calls occur (the run's
handler-call trace is empty).  Covers both UDP socket constructions and a
`Socket` error from TCP setup (classified non-recoverable). -/
theorem c5_socket_error_fatal :
    (∀ cpt io ka script, udpRun cpt (.error io) ka script
        = ⟨[], [], 0, some (.Socket io), (none, 0)⟩) ∧
    (∀ cpt io script, udpRun cpt (.ok ()) (.error io) script
        = ⟨[], [], 0, some (.Socket io), (none, 0)⟩) ∧
    (∀ cur retry io rest, tcpRunLoop cur retry (.err (.Socket io) :: rest)
        = ⟨[], [], 0, some (.Socket io), (cur, retry)⟩) := by
  refine ⟨fun _ _ _ _ => rfl, fun _ _ _ => rfl, fun cur retry io rest => ?_⟩
  simp [tcpRunLoop, Error.isRecoverable]

/-- Claim C8 counterexample: `LocalAddr::with_iface` on a 17-byte interface
name panics (the `assert!` in `net.rs` fails); the rejection is a runtime
panic, not an error return, contradicting the claim. -/
theorem c8_counterexample :
    (LocalAddr.new ⟨.v4 [0, 0, 0, 0], 0⟩).with_iface (List.replicate 17 101)
      = .panicked := rfl

/-- Claim C8 (amended): `LocalAddr::with_iface` accepts an interface name of
length exactly 16 bytes and rejects one of length 17 — but the rejection is a
runtime panic (a failed `assert!`), not a construction error. -/
theorem c8_iface_length (l : LocalAddr) (n16 n17 : List Nat)
    (h16 : n16.length = 16) (h17 : n17.length = 17) :
    l.with_iface n16
      = .ok { l with iface := some (n16 ++ List.replicate (16 - n16.length) 0, n16.length) } ∧
    l.with_iface n17 = .panicked := by
  constructor
  · unfold LocalAddr.with_iface
    rw [if_pos (by simp [IFNAMSIZ, h16])]
  · simp [LocalAddr.with_iface, IFNAMSIZ, h17]

/-- Witness for `c8_iface_length` at a concrete configuration and names. -/
theorem c8_iface_length_witness :
    (LocalAddr.new ⟨.v4 [0, 0, 0, 0], 0⟩).with_iface (List.replicate 16 97)
      = .ok { LocalAddr.new ⟨.v4 [0, 0, 0, 0], 0⟩ with
          iface := some (List.replicate 16 97 ++ List.replicate (16 - (List.replicate 16 97).length) 0,
            (List.replicate 16 97).length) } ∧
    (LocalAddr.new ⟨.v4 [0, 0, 0, 0], 0⟩).with_iface (List.replicate 17 97) = .panicked :=
  c8_iface_length (LocalAddr.new ⟨.v4 [0, 0, 0, 0], 0⟩)
    (List.replicate 16 97) (List.replicate 17 97) (by simp) (by simp)

/-- Claim C9: in `LocalAddr::socket`, when the first bind fails with
address-in-use and the force-reuse flag is set, the reclamation procedure
runs once and bind is retried exactly once (the retry's outcome is final);
any other first-bind failure, an address-in-use failure without force-reuse,
or a second failure after reclamation is reported as the socket error with
no (further) reclamation or retries. -/
theorem c9_bind_retry :
    (∀ env : BindEnv, ∀ e, env.first = some e → e.kind = .addrInUse →
      env.reclaim = none → env.second = none →
      socketBind true env = ⟨.ok (), 1, 2⟩) ∧
    (∀ env : BindEnv, ∀ e e2, env.first = some e → e.kind = .addrInUse →
      env.reclaim = none → env.second = some e2 →
      socketBind true env = ⟨.error e2, 1, 2⟩) ∧
    (∀ (r : Bool), ∀ env : BindEnv, ∀ e, env.first = some e → e.kind ≠ .addrInUse →
      socketBind r env = ⟨.error e, 0, 1⟩) ∧
    (∀ env : BindEnv, ∀ e, env.first = some e →
      socketBind false env = ⟨.error e, 0, 1⟩) := by
  refine ⟨?_, ?_, ?_, ?_⟩
  · intro env e h1 hk hr hs
    simp [socketBind, h1, hk, hr, hs]
  · intro env e e2 h1 hk hr hs
    simp [socketBind, h1, hk, hr, hs]
  · intro r env e h1 hk
    simp [socketBind, h1, hk]
  · intro env e h1
    simp [socketBind, h1]

/-- Witness for `c9_bind_retry`: concrete environments exercising the
reclaim-and-retry path, the retry-failure path, the non-address-in-use path
and the no-force-reuse path. -/
theorem c9_bind_retry_witness :
    socketBind true ⟨some ⟨.addrInUse, 98⟩, none, none⟩ = ⟨.ok (), 1, 2⟩ ∧
    socketBind true ⟨some ⟨.addrInUse, 98⟩, none, some ⟨.addrInUse, 98⟩⟩
      = ⟨.error ⟨.addrInUse, 98⟩, 1, 2⟩ ∧
    socketBind true ⟨some ⟨.other, 13⟩, none, none⟩ = ⟨.error ⟨.other, 13⟩, 0, 1⟩ ∧
    socketBind false ⟨some ⟨.addrInUse, 98⟩, none, none⟩
      = ⟨.error ⟨.addrInUse, 98⟩, 0, 1⟩ :=
  ⟨c9_bind_retry.1 _ _ rfl rfl rfl rfl,
   c9_bind_retry.2.1 _ _ _ rfl rfl rfl rfl,
   c9_bind_retry.2.2.1 true _ _ rfl (by decide),
   c9_bind_retry.2.2.2 _ _ rfl⟩

/-- Claim C6 counterexample: a failed keepalive send does increment `cnt`
(from 0 to 1 here), and with `check_per_tick = 2` a failed send on the first
tick is followed by a probe on the second tick — where the claim (cnt
unchanged by a failed send) would predict another keepalive send. -/
theorem c6_counterexample :
    ((udpTick 3 ⟨.v4 [9, 9, 9, 9], 1⟩ ⟨0, 0, none⟩
        ⟨.error .Malformed, .error 7⟩).1).cnt = 1 ∧
    (udpKeepalive 2 ⟨.v4 [9, 9, 9, 9], 1⟩ none (.ok ⟨.v4 [1, 2, 3, 4], 80⟩)
        [⟨.ok ⟨.v4 [1, 2, 3, 4], 80⟩, .error 7⟩,
         ⟨.ok ⟨.v4 [1, 2, 3, 4], 80⟩, .ok ()⟩]).actions
      = [.send NYA ⟨.v4 [9, 9, 9, 9], 1⟩, .probe] :=
  ⟨rfl, rfl⟩

/-- Claim C6 (amended): after the initial probe the loop starts with
`cnt = 0`; every tick increments `cnt` once, regardless of outcomes; a tick
probes exactly when the incremented counter reaches `check_per_tick`
(equivalently, when `cnt + 1 = check_per_tick`, given the loop invariant
`cnt < check_per_tick`), and the probe branch resets `cnt` to 0 whether or
not the probe succeeds; every other tick sends the fixed payload `"nya"` to
the STUN remote on the keepalive socket, and the send outcome does not
affect `cnt`. -/
theorem c6_tick_behavior (cpt : Nat) (sa : SocketAddr) (st : InnerState)
    (o : TickOutcome) (hinv : st.cnt < cpt) :
    ((udpTick cpt sa st o).2.1 = .probe ↔ st.cnt + 1 = cpt) ∧
    ((udpTick cpt sa st o).2.1 ≠ .probe →
      (udpTick cpt sa st o).2.1 = .send NYA sa) ∧
    ((udpTick cpt sa st o).1).cnt
      = (if st.cnt + 1 = cpt then 0 else st.cnt + 1) ∧
    (∀ cur initProbe ticks,
      (udpKeepalive cpt sa cur (.ok initProbe) ticks).actions
        = (udpLoop cpt sa ⟨0, 0, some initProbe⟩ ticks).actions) := by
  have hcond : st.cnt + 1 ≥ cpt ↔ st.cnt + 1 = cpt := by omega
  refine ⟨?_, ?_, ?_, fun cur initProbe ticks => rfl⟩
  · rw [udpTick_act]
    by_cases h : st.cnt + 1 ≥ cpt
    · simp [h, hcond.mp h]
    · simp only [if_neg h]
      constructor
      · intro hq
        exact absurd hq (by simp)
      · intro hq
        omega
  · rw [udpTick_act]
    by_cases h : st.cnt + 1 ≥ cpt <;> simp [h]
  · rw [udpTick_cnt]
    by_cases h : st.cnt + 1 ≥ cpt
    · simp [h, hcond.mp h]
    · rw [if_neg h, if_neg (by omega)]

/-- Witness for `c6_tick_behavior` at a concrete state and tick outcome. -/
theorem c6_tick_behavior_witness :
    ((udpTick 5 ⟨.v4 [9, 9, 9, 9], 1⟩ ⟨2, 0, none⟩ ⟨.ok ⟨.v4 [1, 2, 3, 4], 80⟩, .ok ()⟩).2.1
        = .probe ↔ 2 + 1 = 5) ∧
    ((udpTick 5 ⟨.v4 [9, 9, 9, 9], 1⟩ ⟨2, 0, none⟩ ⟨.ok ⟨.v4 [1, 2, 3, 4], 80⟩, .ok ()⟩).2.1
        ≠ .probe →
      (udpTick 5 ⟨.v4 [9, 9, 9, 9], 1⟩ ⟨2, 0, none⟩ ⟨.ok ⟨.v4 [1, 2, 3, 4], 80⟩, .ok ()⟩).2.1
        = .send NYA ⟨.v4 [9, 9, 9, 9], 1⟩) ∧
    ((udpTick 5 ⟨.v4 [9, 9, 9, 9], 1⟩ ⟨2, 0, none⟩
        ⟨.ok ⟨.v4 [1, 2, 3, 4], 80⟩, .ok ()⟩).1).cnt = (if 2 + 1 = 5 then 0 else 2 + 1) :=
  ⟨(c6_tick_behavior 5 ⟨.v4 [9, 9, 9, 9], 1⟩ ⟨2, 0, none⟩
      ⟨.ok ⟨.v4 [1, 2, 3, 4], 80⟩, .ok ()⟩ (by decide)).1,
   (c6_tick_behavior 5 ⟨.v4 [9, 9, 9, 9], 1⟩ ⟨2, 0, none⟩
      ⟨.ok ⟨.v4 [1, 2, 3, 4], 80⟩, .ok ()⟩ (by decide)).2.1,
   (c6_tick_behavior 5 ⟨.v4 [9, 9, 9, 9], 1⟩ ⟨2, 0, none⟩
      ⟨.ok ⟨.v4 [1, 2, 3, 4], 80⟩, .ok ()⟩ (by decide)).2.2.1⟩

/-- Claim C2 counterexample: in `UdpMapper::run` a single DNS failure is
`?`-propagated out of `run` at once — result `DnsResolve`, zero backoff
sleeps, retry counter still 0 — contradicting the claim that DNS failures
increment the counter, sleep, re-run setup, and only return at the fifth
consecutive failure. -/
theorem c2_counterexample :
    udpRun 5 (.ok ()) (.ok ())
        [⟨.error (.Resolve 11), .ok (), .ok ⟨.v4 [1, 2, 3, 4], 80⟩, []⟩]
      = ⟨[], [], 0, some (.DnsResolve 11), (none, 0)⟩ := rfl

/-- Claim C2 (amended): in `TcpMapper::run` every recoverable setup failure
(DNS, connect, STUN — any non-`Socket` error) increments the retry counter,
is followed by a backoff sleep, and re-runs setup; `run` returns the most
recent error exactly when the counter reaches `RETRY_LTD = 5`; a successful
setup resets the counter to 0, so four consecutive DNS failures followed by
a success keep running while five consecutive DNS failures return the DNS
error.  (TCP keepalive failures are discarded and never reach the counter.)
In `UdpMapper::run`, a DNS or connect failure returns immediately as the
run's result; an error escalated out of the inner keepalive loop increments
the outer counter, is followed by a backoff sleep, and re-runs setup, with
`run` returning the escalated error once the counter reaches `RETRY_LTD`;
and the outer counter is never reset — it never drops below its starting
value on any script. -/
theorem c2_retry_behavior :
    (∀ e1 e2 e3 e4 e5 : Error,
      e1.isRecoverable = true → e2.isRecoverable = true → e3.isRecoverable = true →
      e4.isRecoverable = true → e5.isRecoverable = true →
      tcpRun [.err e1, .err e2, .err e3, .err e4, .err e5]
        = ⟨[], [], 4, some e5, (none, 5)⟩) ∧
    (∀ (e1 e2 e3 e4 : Error) (pub : SocketAddr),
      e1.isRecoverable = true → e2.isRecoverable = true → e3.isRecoverable = true →
      e4.isRecoverable = true →
      tcpRun [.err e1, .err e2, .err e3, .err e4, .ok pub]
        = ⟨[pub], [pub], 5, none, (some pub, 0)⟩) ∧
    (∀ cur retry e rest, e.isRecoverable = true → retry + 1 < RETRY_LTD →
      tcpRunLoop cur retry (.err e :: rest)
        = ⟨(tcpRunLoop cur (retry + 1) rest).calls,
           (tcpRunLoop cur (retry + 1) rest).discoveries,
           (tcpRunLoop cur (retry + 1) rest).sleeps + 1,
           (tcpRunLoop cur (retry + 1) rest).result,
           (tcpRunLoop cur (retry + 1) rest).final⟩) ∧
    (∀ cur retry e rest, e.isRecoverable = true → retry + 1 ≥ RETRY_LTD →
      tcpRunLoop cur retry (.err e :: rest) = ⟨[], [], 0, some e, (cur, retry + 1)⟩) ∧
    (∀ cur retry pub rest,
      tcpRunLoop cur retry (.ok pub :: rest)
        = ⟨(if cur ≠ some pub then [pub] else []) ++ (tcpRunLoop (some pub) 0 rest).calls,
           pub :: (tcpRunLoop (some pub) 0 rest).discoveries,
           (tcpRunLoop (some pub) 0 rest).sleeps + 1,
           (tcpRunLoop (some pub) 0 rest).result,
           (tcpRunLoop (some pub) 0 rest).final⟩) ∧
    (∀ cpt cur retry (entry : OuterEntry) rest de, entry.dns = .error de →
      udpRunLoop cpt cur retry (entry :: rest)
        = ⟨[], [], 0, some de.toError, (cur, retry)⟩) ∧
    (∀ cpt cur retry (entry : OuterEntry) rest sa io, entry.dns = .ok sa →
      entry.conn = .error io →
      udpRunLoop cpt cur retry (entry :: rest)
        = ⟨[], [], 0, some (.Connection io), (cur, retry)⟩) ∧
    (∀ cpt cur retry (entry : OuterEntry) rest sa err, entry.dns = .ok sa →
      entry.conn = .ok () →
      (udpKeepalive cpt sa cur entry.initProbe entry.ticks).result = some err →
      err.isSocket = false → retry + 1 < RETRY_LTD →
      udpRunLoop cpt cur retry (entry :: rest)
        = ⟨(udpKeepalive cpt sa cur entry.initProbe entry.ticks).calls
             ++ (udpRunLoop cpt (udpKeepalive cpt sa cur entry.initProbe entry.ticks).final.cur
                  (retry + 1) rest).calls,
           (udpKeepalive cpt sa cur entry.initProbe entry.ticks).discoveries
             ++ (udpRunLoop cpt (udpKeepalive cpt sa cur entry.initProbe entry.ticks).final.cur
                  (retry + 1) rest).discoveries,
           (udpRunLoop cpt (udpKeepalive cpt sa cur entry.initProbe entry.ticks).final.cur
              (retry + 1) rest).sleeps + 1,
           (udpRunLoop cpt (udpKeepalive cpt sa cur entry.initProbe entry.ticks).final.cur
              (retry + 1) rest).result,
           (udpRunLoop cpt (udpKeepalive cpt sa cur entry.initProbe entry.ticks).final.cur
              (retry + 1) rest).final⟩) ∧
    (∀ cpt cur retry (entry : OuterEntry) rest sa err, entry.dns = .ok sa →
      entry.conn = .ok () →
      (udpKeepalive cpt sa cur entry.initProbe entry.ticks).result = some err →
      err.isSocket = false → retry + 1 ≥ RETRY_LTD →
      udpRunLoop cpt cur retry (entry :: rest)
        = ⟨(udpKeepalive cpt sa cur entry.initProbe entry.ticks).calls,
           (udpKeepalive cpt sa cur entry.initProbe entry.ticks).discoveries,
           0, some err,
           ((udpKeepalive cpt sa cur entry.initProbe entry.ticks).final.cur, retry + 1)⟩) ∧
    (∀ cpt (script : List OuterEntry) cur retry,
      retry ≤ (udpRunLoop cpt cur retry script).final.2) := by
  have hstep : ∀ cur retry e rest, e.isRecoverable = true → retry + 1 < RETRY_LTD →
      tcpRunLoop cur retry (.err e :: rest)
        = ⟨(tcpRunLoop cur (retry + 1) rest).calls,
           (tcpRunLoop cur (retry + 1) rest).discoveries,
           (tcpRunLoop cur (retry + 1) rest).sleeps + 1,
           (tcpRunLoop cur (retry + 1) rest).result,
           (tcpRunLoop cur (retry + 1) rest).final⟩ := by
    intro cur retry e rest hrec hlt
    conv_lhs => simp only [tcpRunLoop]
    rw [if_neg (by simp [hrec]), if_neg (by simp [RETRY_LTD] at hlt ⊢; omega)]
  have hlimit : ∀ cur retry e rest, e.isRecoverable = true → retry + 1 ≥ RETRY_LTD →
      tcpRunLoop cur retry (.err e :: rest) = ⟨[], [], 0, some e, (cur, retry + 1)⟩ := by
    intro cur retry e rest hrec hge
    unfold tcpRunLoop
    rw [if_neg (by simp [hrec]), if_pos hge]
  have hok : ∀ cur retry pub rest,
      tcpRunLoop cur retry (.ok pub :: rest)
        = ⟨(if cur ≠ some pub then [pub] else []) ++ (tcpRunLoop (some pub) 0 rest).calls,
           pub :: (tcpRunLoop (some pub) 0 rest).discoveries,
           (tcpRunLoop (some pub) 0 rest).sleeps + 1,
           (tcpRunLoop (some pub) 0 rest).result,
           (tcpRunLoop (some pub) 0 rest).final⟩ := by
    intro cur retry pub rest
    rfl
  refine ⟨?_, ?_, hstep, hlimit, hok, ?_, ?_, ?_, ?_,
    fun cpt => udpRunLoop_retry_monotone cpt⟩
  · intro e1 e2 e3 e4 e5 h1 h2 h3 h4 h5
    unfold tcpRun
    rw [hstep _ _ _ _ h1 (by simp [RETRY_LTD]), hstep _ _ _ _ h2 (by simp [RETRY_LTD]),
      hstep _ _ _ _ h3 (by simp [RETRY_LTD]), hstep _ _ _ _ h4 (by simp [RETRY_LTD]),
      hlimit _ _ _ _ h5 (by simp [RETRY_LTD])]
  · intro e1 e2 e3 e4 pub h1 h2 h3 h4
    unfold tcpRun
    rw [hstep _ _ _ _ h1 (by simp [RETRY_LTD]), hstep _ _ _ _ h2 (by simp [RETRY_LTD]),
      hstep _ _ _ _ h3 (by simp [RETRY_LTD]), hstep _ _ _ _ h4 (by simp [RETRY_LTD]),
      hok]
    simp [tcpRunLoop]
  · intro cpt cur retry entry rest de hdns
    unfold udpRunLoop
    rw [hdns]
  · intro cpt cur retry entry rest sa io hdns hconn
    unfold udpRunLoop
    rw [hdns, hconn]
  · intro cpt cur retry entry rest sa err hdns hconn hres hsock hlt
    conv_lhs => simp only [udpRunLoop]
    simp only [hdns, hconn, hres]
    rw [if_neg (by simp [hsock]), if_neg (by omega)]
  · intro cpt cur retry entry rest sa err hdns hconn hres hsock hge
    conv_lhs => simp only [udpRunLoop]
    simp only [hdns, hconn, hres]
    rw [if_neg (by simp [hsock]), if_pos hge]

/-- Witness for `c2_retry_behavior` at concrete errors, scripts and states:
five TCP DNS failures return the fifth; four-then-success keeps running with
the counter reset; a UDP DNS or connect failure returns at once; an inner
STUN escalation at outer counter 0 sleeps once and re-runs setup with the
counter at 1; the same escalation at counter 4 returns the error at 5. -/
theorem c2_retry_behavior_witness :
    tcpRun [.err (.DnsResolve 1), .err (.DnsResolve 2), .err (.DnsResolve 3),
        .err (.DnsResolve 4), .err (.DnsResolve 5)]
      = ⟨[], [], 4, some (.DnsResolve 5), (none, 5)⟩ ∧
    tcpRun [.err (.DnsResolve 1), .err (.DnsResolve 2), .err (.DnsResolve 3),
        .err (.DnsResolve 4), .ok ⟨.v4 [1, 2, 3, 4], 80⟩]
      = ⟨[⟨.v4 [1, 2, 3, 4], 80⟩], [⟨.v4 [1, 2, 3, 4], 80⟩], 5, none,
         (some ⟨.v4 [1, 2, 3, 4], 80⟩, 0)⟩ ∧
    udpRunLoop 5 none 0 [⟨.error (.Resolve 11), .ok (), .ok ⟨.v4 [1, 2, 3, 4], 80⟩, []⟩]
      = ⟨[], [], 0, some (.DnsResolve 11), (none, 0)⟩ ∧
    udpRunLoop 5 none 0 [⟨.ok ⟨.v4 [9, 9, 9, 9], 1⟩, .error 111,
        .ok ⟨.v4 [1, 2, 3, 4], 80⟩, []⟩]
      = ⟨[], [], 0, some (.Connection 111), (none, 0)⟩ ∧
    udpRunLoop 5 none 0 [⟨.ok ⟨.v4 [9, 9, 9, 9], 1⟩, .ok (), .error .Malformed, []⟩]
      = ⟨[], [], 1, none, (none, 1)⟩ ∧
    udpRunLoop 5 none 4 [⟨.ok ⟨.v4 [9, 9, 9, 9], 1⟩, .ok (), .error .Malformed, []⟩]
      = ⟨[], [], 0, some .StunMalformed, (none, 5)⟩ :=
  ⟨c2_retry_behavior.1 _ _ _ _ _ rfl rfl rfl rfl rfl,
   c2_retry_behavior.2.1 _ _ _ _ _ rfl rfl rfl rfl,
   c2_retry_behavior.2.2.2.2.2.1 5 none 0 _ [] (DnsError.Resolve 11) rfl,
   c2_retry_behavior.2.2.2.2.2.2.1 5 none 0 _ [] ⟨.v4 [9, 9, 9, 9], 1⟩ 111 rfl rfl,
   c2_retry_behavior.2.2.2.2.2.2.2.1 5 none 0 _ [] ⟨.v4 [9, 9, 9, 9], 1⟩ .StunMalformed
     rfl rfl rfl rfl (by decide),
   c2_retry_behavior.2.2.2.2.2.2.2.2.1 5 none 4 _ [] ⟨.v4 [9, 9, 9, 9], 1⟩ .StunMalformed
     rfl rfl rfl rfl (by decide)⟩

/-- Claim C1: in every run of `TcpMapper::run` or `UdpMapper::run`, the
handler-call trace equals the sequence of STUN-discovered addresses filtered
by `changes none` — i.e. the handler is invoked exactly when a discovery
differs from the last value reported, the initial discovery counting as a
change from unknown (`none`); consequently any two successive handler
invocations carry different addresses (`Chain' Ne`), and a re-discovery
equal to the last reported value causes no invocation. -/
theorem c1_change_notifications :
    (∀ cpt st ka script,
      (udpRun cpt st ka script).calls
        = changes none (udpRun cpt st ka script).discoveries ∧
      List.Chain' Ne (udpRun cpt st ka script).calls) ∧
    (∀ script,
      (tcpRun script).calls = changes none (tcpRun script).discoveries ∧
      List.Chain' Ne (tcpRun script).calls) := by
  constructor
  · intro cpt st ka script
    cases st with
    | error io => exact ⟨rfl, List.chain'_nil⟩
    | ok u =>
      cases ka with
      | error io => exact ⟨rfl, List.chain'_nil⟩
      | ok v =>
        have h := udpRunLoop_notify cpt script none 0
        refine ⟨h, ?_⟩
        rw [show (udpRun cpt (.ok u) (.ok v) script).calls
            = (udpRunLoop cpt none 0 script).calls from rfl, h]
        exact (changes_chain _ none).1
  · intro script
    have h := tcpRunLoop_notify script none 0
    refine ⟨h, ?_⟩
    rw [show (tcpRun script).calls = (tcpRunLoop none 0 script).calls from rfl, h]
    exact (changes_chain _ none).1

lemma zipWith_xor_cancel : ∀ (l k : List Nat), l.length = k.length →
    List.zipWith Nat.xor (List.zipWith Nat.xor l k) k = l := by
  intro l
  induction l with
  | nil => intro k h; simp
  | cons a l ih =>
    intro k h
    cases k with
    | nil => simp at h
    | cons b k =>
      simp only [List.zipWith_cons_cons]
      rw [show Nat.xor (Nat.xor a b) b = a from Nat.xor_cancel_right b a,
        ih k (by simpa using h)]

/-- Claim C7: for every IPv4 or IPv6 address, 16-bit port and 12-byte
transaction id, building a XOR-MAPPED-ADDRESS value from `(ip, port, txId)`
and applying `parse_xor_mapped` with the same transaction id recovers
exactly the original `(ip, port)`. -/
theorem c7_xor_roundtrip (ip : IpAddr) (port : Nat) (tx : List Nat)
    (hport : port < 65536) (htx : tx.length = 12)
    (hip : match ip with | .v4 o => o.length = 4 | .v6 o => o.length = 16) :
    parse_xor_mapped (buildXorMapped ip port tx) tx = .ok ⟨ip, port⟩ := by
  have hx : (port ^^^ 0x2112) / 256 * 256 + (port ^^^ 0x2112) % 256 = port ^^^ 0x2112 := by
    omega
  have hxc : (port ^^^ 0x2112) ^^^ 0x2112 = port := Nat.xor_cancel_right _ _
  cases ip with
  | v4 o =>
    have ho : o.length = 4 := hip
    have hkey : o.length = cookieBytes.length := by rw [ho]; rfl
    have hzw : (List.zipWith Nat.xor o cookieBytes).length = 4 := by
      simp [cookieBytes, ho]
    show parse_xor_mapped
        (0 :: 1 :: ((port ^^^ 0x2112) / 256) :: ((port ^^^ 0x2112) % 256)
          :: List.zipWith Nat.xor o cookieBytes) tx = _
    unfold parse_xor_mapped
    rw [if_neg (by simp only [List.length_cons, hzw]; omega)]
    simp only [List.getD_cons_succ, List.getD_cons_zero, List.drop_succ_cons,
      List.drop_zero]
    rw [if_pos (show (1 : Nat) = FAMILY_IPV4 from rfl)]
    rw [show ((4 : Nat) = (List.zipWith Nat.xor o cookieBytes).length) from hzw.symm,
      List.take_length, zipWith_xor_cancel o cookieBytes hkey]
    unfold u16be
    rw [hx, hxc]
  | v6 o =>
    have ho : o.length = 16 := hip
    have hkey : o.length = (cookieBytes ++ tx).length := by
      simp [cookieBytes, ho, htx]
    have hzw : (List.zipWith Nat.xor o (cookieBytes ++ tx)).length = 16 := by
      simp [cookieBytes, ho, htx]
    show parse_xor_mapped
        (0 :: 2 :: ((port ^^^ 0x2112) / 256) :: ((port ^^^ 0x2112) % 256)
          :: List.zipWith Nat.xor o (cookieBytes ++ tx)) tx = _
    unfold parse_xor_mapped
    rw [if_neg (by simp only [List.length_cons, hzw]; omega)]
    simp only [List.getD_cons_succ, List.getD_cons_zero, List.drop_succ_cons,
      List.drop_zero]
    rw [if_neg (by norm_num [FAMILY_IPV4])]
    rw [if_pos (by refine ⟨rfl, ?_⟩; simp only [List.length_cons, hzw]; omega)]
    rw [show ((16 : Nat) = (List.zipWith Nat.xor o (cookieBytes ++ tx)).length) from hzw.symm,
      List.take_length, zipWith_xor_cancel o (cookieBytes ++ tx) hkey]
    unfold u16be
    rw [hx, hxc]

/-- Witness for `c7_xor_roundtrip` at a concrete IPv4 address, port and
transaction id. -/
theorem c7_xor_roundtrip_witness :
    parse_xor_mapped (buildXorMapped (.v4 [203, 0, 113, 7]) 40001 (List.replicate 12 7))
        (List.replicate 12 7)
      = .ok ⟨.v4 [203, 0, 113, 7], 40001⟩ :=
  c7_xor_roundtrip (.v4 [203, 0, 113, 7]) 40001 (List.replicate 12 7)
    (by decide) (by simp) (by decide)

/-- Claim C10: `parse_response` is total on arbitrary byte slices (the
embedding is a total function, so no panic and no out-of-bounds read is
possible), and each listed malformation yields `Malformed`: a declared body
length exceeding the supplied bytes; an attribute whose declared value
length overruns the body; an address attribute value shorter than 8 bytes
(for `parse_xor_mapped` and `parse_mapped` alike); an IPv6-family value
shorter than 20 bytes; and an unknown address family. -/
theorem c10_parser_totality :
    (∀ data tx, HEADER_SIZE ≤ data.length → (data.drop 8).take 12 = tx →
      data.length < HEADER_SIZE + u16be (data.getD 2 0) (data.getD 3 0) →
      parse_response data tx = .error .Malformed) ∧
    (∀ body tx fuel offset, offset + 4 ≤ body.length →
      body.length < offset + 4 + u16be (body.getD (offset + 2) 0) (body.getD (offset + 3) 0) →
      attrsLoop body tx (fuel + 1) offset = .error .Malformed) ∧
    (∀ v tx, v.length < 8 → parse_xor_mapped v tx = .error .Malformed) ∧
    (∀ v, v.length < 8 → parse_mapped v = .error .Malformed) ∧
    (∀ v tx, 8 ≤ v.length → v.getD 1 0 = FAMILY_IPV6 → v.length < 20 →
      parse_xor_mapped v tx = .error .Malformed) ∧
    (∀ v tx, 8 ≤ v.length → v.getD 1 0 ≠ FAMILY_IPV4 → v.getD 1 0 ≠ FAMILY_IPV6 →
      parse_xor_mapped v tx = .error .Malformed) := by
  refine ⟨?_, ?_, ?_, ?_, ?_, ?_⟩
  · intro data tx hlen htx hover
    unfold parse_response
    rw [if_neg (by omega), if_neg (by simpa using htx)]
    have hnone : sliceGet data HEADER_SIZE
        (HEADER_SIZE + u16be (data.getD 2 0) (data.getD 3 0)) = none := by
      unfold sliceGet
      rw [if_neg (by omega)]
    simp only [hnone]
  · intro body tx fuel offset hin hover
    unfold attrsLoop
    rw [if_pos hin]
    have hnone : sliceGet body (offset + 4)
        (offset + 4 + u16be (body.getD (offset + 2) 0) (body.getD (offset + 3) 0)) = none := by
      unfold sliceGet
      rw [if_neg (by omega)]
    simp only [hnone]
  · intro v tx hshort
    unfold parse_xor_mapped
    rw [if_pos hshort]
  · intro v hshort
    unfold parse_mapped
    rw [if_pos hshort]
  · intro v tx hlen hfam hshort
    unfold parse_xor_mapped
    rw [if_neg (by omega), if_neg (by rw [hfam]; norm_num [FAMILY_IPV4, FAMILY_IPV6]),
      if_neg (by rw [hfam]; push_neg; intro; omega)]
  · intro v tx hlen hfam4 hfam6
    unfold parse_xor_mapped
    rw [if_neg (by omega), if_neg hfam4, if_neg (by push_neg; intro h; exact absurd h hfam6)]

/-- Witness for `c10_parser_totality`: concrete malformed inputs for each
conjunct — a header declaring a 4-byte body with none supplied, an attribute
declaring 200 value bytes in a 4-byte body, a 7-byte address value, an
IPv6-family value of 8 bytes, and a family-3 value. -/
theorem c10_parser_totality_witness :
    parse_response ([1, 1, 0, 4] ++ [0x21, 0x12, 0xA4, 0x42] ++ List.replicate 12 7)
        (List.replicate 12 7) = .error .Malformed ∧
    attrsLoop [0, 1, 0, 200] (List.replicate 12 7) 5 0 = .error .Malformed ∧
    parse_xor_mapped [0, 1, 0, 80, 1, 2, 3] (List.replicate 12 7) = .error .Malformed ∧
    parse_mapped [0, 1, 0, 80, 1, 2, 3] = .error .Malformed ∧
    parse_xor_mapped [0, 2, 0, 80, 1, 2, 3, 4] (List.replicate 12 7) = .error .Malformed ∧
    parse_xor_mapped [0, 3, 0, 80, 1, 2, 3, 4] (List.replicate 12 7) = .error .Malformed :=
  ⟨c10_parser_totality.1 _ _ (by decide) (by decide) (by decide),
   c10_parser_totality.2.1 _ _ 4 0 (by decide) (by decide),
   c10_parser_totality.2.2.1 _ _ (by decide),
   c10_parser_totality.2.2.2.1 _ (by decide),
   c10_parser_totality.2.2.2.2.1 _ _ (by decide) (by decide) (by decide),
   c10_parser_totality.2.2.2.2.2 _ _ (by decide) (by decide) (by decide)⟩

lemma getD_take_lt (l : List Nat) (n i : Nat) (h : i < n) (d : Nat) :
    (l.take n).getD i d = l.getD i d := by
  rw [List.getD_eq_getD_get?, List.getD_eq_getD_get?, List.get?_eq_getElem?,
    List.get?_eq_getElem?, List.getElem?_take_of_lt h]

lemma parse_xor_mapped_ne_tooLarge (v tx : List Nat) :
    parse_xor_mapped v tx ≠ .error .ResponseTooLarge := by
  simp only [parse_xor_mapped]
  split_ifs <;> simp

lemma parse_mapped_ne_tooLarge (v : List Nat) :
    parse_mapped v ≠ .error .ResponseTooLarge := by
  simp only [parse_mapped]
  split_ifs <;> simp

lemma attrsLoop_ne_tooLarge :
    ∀ (fuel : Nat) (body tx : List Nat) (offset : Nat),
      attrsLoop body tx fuel offset ≠ .error .ResponseTooLarge := by
  intro fuel
  induction fuel with
  | zero => intro body tx offset; simp [attrsLoop]
  | succ f ih =>
    intro body tx offset
    unfold attrsLoop
    by_cases hin : offset + 4 ≤ body.length
    · rw [if_pos hin]
      cases hs : sliceGet body (offset + 4)
          (offset + 4 + u16be (body.getD (offset + 2) 0) (body.getD (offset + 3) 0)) with
      | none =>
        simp only [hs]
        simp
      | some value =>
        simp only [hs]
        split_ifs
        · exact parse_xor_mapped_ne_tooLarge value tx
        · exact parse_mapped_ne_tooLarge value
        · exact ih body tx _
    · rw [if_neg hin]
      simp

lemma parse_response_ne_tooLarge (data tx : List Nat) :
    parse_response data tx ≠ .error .ResponseTooLarge := by
  unfold parse_response
  split_ifs
  · simp
  · simp
  · cases hs : sliceGet data HEADER_SIZE
        (HEADER_SIZE + u16be (data.getD 2 0) (data.getD 3 0)) with
    | none =>
      simp only [hs]
      simp
    | some body =>
      simp only [hs]
      exact attrsLoop_ne_tooLarge _ body tx 0

/-- Claim C4 counterexample: a UDP STUN response whose header declares body
length 2049 is rejected by `udp_socket_addr` as `Malformed`, not as the
distinct `ResponseTooLarge` error the claim promises (the UDP receive path
has no body-size check; the declared body can never fit the 2068-byte
receive buffer). -/
theorem c4_counterexample :
    udp_socket_addr ([1, 1] ++ be16 2049 ++ cookieBytes ++ List.replicate 12 7)
      (List.replicate 12 7) = .error .Malformed := by rfl

/-- Claim C4 (amended): the TCP discovery accepts a declared body length of
up to 2048 (proceeding to normal parsing of header ++ body) and rejects
2049 or more with the distinct `ResponseTooLarge` error; the UDP discovery
never produces `ResponseTooLarge` at all — the receive buffer holds
`HEADER_SIZE + MAX_BODY_SIZE = 2068` bytes, so a declared body length of
2049 or more can never be satisfied by the received bytes and (with a
matching transaction id) yields `Malformed`. -/
theorem c4_size_limit :
    (∀ header body tx, header.length = HEADER_SIZE →
      u16be (header.getD 2 0) (header.getD 3 0) = body.length →
      body.length ≤ MAX_BODY_SIZE →
      tcp_socket_addr (header ++ body) tx = parse_response (header ++ body) tx) ∧
    (∀ resp tx, HEADER_SIZE ≤ resp.length →
      2049 ≤ u16be (resp.getD 2 0) (resp.getD 3 0) →
      tcp_socket_addr resp tx = .error .ResponseTooLarge) ∧
    (∀ datagram tx, HEADER_SIZE ≤ datagram.length →
      ((datagram.take (min datagram.length (HEADER_SIZE + MAX_BODY_SIZE))).drop 8).take 12
        = tx →
      2049 ≤ u16be (datagram.getD 2 0) (datagram.getD 3 0) →
      udp_socket_addr datagram tx = .error .Malformed) ∧
    (∀ datagram tx, udp_socket_addr datagram tx ≠ .error .ResponseTooLarge) := by
  have hH : HEADER_SIZE = 20 := rfl
  have hM : MAX_BODY_SIZE = 2048 := rfl
  refine ⟨?_, ?_, ?_, ?_⟩
  · intro header body tx hh hlen hmax
    have hl : (header ++ body).length = HEADER_SIZE + body.length := by
      rw [List.length_append, hh]
    have htake : (header ++ body).take HEADER_SIZE = header := by
      conv_lhs => rw [← hh]
      exact List.take_left _ _
    simp only [tcp_socket_addr]
    rw [htake, hlen]
    rw [if_neg (by rw [hl]; omega), if_neg (by omega), if_neg (by rw [hl]; omega)]
    rw [← hl, List.take_length _]
  · intro resp tx h20 h2049
    simp only [tcp_socket_addr]
    rw [if_neg (by omega)]
    rw [getD_take_lt resp HEADER_SIZE 2 (by omega) 0,
      getD_take_lt resp HEADER_SIZE 3 (by omega) 0]
    rw [if_pos (by omega)]
  · intro dg tx h20 htx h2049
    have hmin : HEADER_SIZE ≤ min dg.length (HEADER_SIZE + MAX_BODY_SIZE) := by
      rw [hH, hM] at *
      omega
    have hlt : (dg.take (min dg.length (HEADER_SIZE + MAX_BODY_SIZE))).length
        = min dg.length (HEADER_SIZE + MAX_BODY_SIZE) := by
      rw [List.length_take]
      omega
    simp only [udp_socket_addr]
    rw [if_neg (by omega)]
    simp only [parse_response]
    rw [if_neg (by rw [hlt]; omega), if_neg (by rw [htx]; exact fun h => h rfl)]
    rw [getD_take_lt dg _ 2 (by omega) 0, getD_take_lt dg _ 3 (by omega) 0]
    have hnone : sliceGet (dg.take (min dg.length (HEADER_SIZE + MAX_BODY_SIZE)))
        HEADER_SIZE (HEADER_SIZE + u16be (dg.getD 2 0) (dg.getD 3 0)) = none := by
      unfold sliceGet
      rw [if_neg (by rw [hlt]; push_neg; intro; rw [hH, hM] at *; omega)]
    simp only [hnone]
  · intro dg tx
    simp only [udp_socket_addr]
    split_ifs
    · simp
    · exact parse_response_ne_tooLarge _ _

/-- Witness for `c4_size_limit`: a zero-length TCP body is parsed normally,
a TCP header declaring 2049 is `ResponseTooLarge`, and a UDP datagram
declaring 2049 (matching transaction id) is `Malformed`. -/
theorem c4_size_limit_witness :
    tcp_socket_addr (([1, 1, 0, 0] ++ cookieBytes ++ List.replicate 12 7) ++ [])
        (List.replicate 12 7)
      = parse_response (([1, 1, 0, 0] ++ cookieBytes ++ List.replicate 12 7) ++ [])
        (List.replicate 12 7) ∧
    tcp_socket_addr ([1, 1] ++ be16 2049 ++ cookieBytes ++ List.replicate 12 7)
        (List.replicate 12 7) = .error .ResponseTooLarge ∧
    udp_socket_addr ([1, 1] ++ be16 2049 ++ cookieBytes ++ List.replicate 12 7)
        (List.replicate 12 7) = .error .Malformed :=
  ⟨c4_size_limit.1 ([1, 1, 0, 0] ++ cookieBytes ++ List.replicate 12 7) [] _
      (by decide) (by decide) (by decide),
   c4_size_limit.2.1 ([1, 1] ++ be16 2049 ++ cookieBytes ++ List.replicate 12 7) _
      (by decide) (by decide),
   c4_size_limit.2.2.1 ([1, 1] ++ be16 2049 ++ cookieBytes ++ List.replicate 12 7) _
      (by decide) (by decide) (by decide)⟩

lemma align4_ge (n : Nat) : n ≤ align4 n := by
  unfold align4
  omega

lemma encAttr_length (t : Nat) (v : List Nat) :
    (encAttr t v).length = 4 + align4 v.length := by
  have := align4_ge v.length
  simp [encAttr, be16]
  omega

lemma encAttrs_cons (t : Nat) (v : List Nat) (rest : List (Nat × List Nat)) :
    encAttrs ((t, v) :: rest) = encAttr t v ++ encAttrs rest := by
  simp [encAttrs]

lemma encAttrs_length_ge : ∀ attrs : List (Nat × List Nat),
    attrs.length ≤ (encAttrs attrs).length := by
  intro attrs
  induction attrs with
  | nil => simp [encAttrs]
  | cons p rest ih =>
    rcases p with ⟨t, v⟩
    rw [encAttrs_cons, List.length_append, encAttr_length]
    simp only [List.length_cons]
    omega

lemma sliceGet_append (pre v rest : List Nat) :
    sliceGet (pre ++ (v ++ rest)) pre.length (pre.length + v.length) = some v := by
  unfold sliceGet
  have hle : pre.length + v.length ≤ (pre ++ (v ++ rest)).length := by
    simp [List.length_append]
  rw [if_pos ⟨Nat.le_add_right _ _, hle⟩, List.drop_left,
    show pre.length + v.length - pre.length = v.length by omega, List.take_left]

lemma getD_append_add (pre X : List Nat) (i d : Nat) :
    (pre ++ X).getD (pre.length + i) d = X.getD i d := by
  rw [List.getD_append_right pre X d (pre.length + i) (Nat.le_add_right _ _),
    Nat.add_sub_cancel_left]

lemma getD_append_self (pre X : List Nat) (d : Nat) :
    (pre ++ X).getD pre.length d = X.getD 0 d := by
  rw [List.getD_append_right pre X d pre.length (Nat.le_refl _), Nat.sub_self]

/-- The attribute walk of `parse_response` over an encoded attribute list
returns the decode of the first XOR-MAPPED-ADDRESS or MAPPED-ADDRESS
attribute in list order. -/
lemma attrsLoop_enc (tx : List Nat) :
    ∀ (attrs : List (Nat × List Nat)) (pre : List Nat) (fuel : Nat),
      (∀ p ∈ attrs, p.1 < 65536 ∧ p.2.length < 65536) →
      attrs.length < fuel →
      attrsLoop (pre ++ encAttrs attrs) tx fuel pre.length = parseAttrs attrs tx := by
  intro attrs
  induction attrs with
  | nil =>
    intro pre fuel _ hfuel
    cases fuel with
    | zero => omega
    | succ f =>
      show attrsLoop (pre ++ encAttrs []) tx (f + 1) pre.length = _
      rw [show encAttrs [] = [] from rfl, List.append_nil]
      unfold attrsLoop
      rw [if_neg (by omega)]
      rfl
  | cons p rest ih =>
    rcases p with ⟨t, v⟩
    intro pre fuel hwf hfuel
    have hwf1 : t < 65536 ∧ v.length < 65536 := hwf (t, v) (by simp)
    have hwfr : ∀ q ∈ rest, q.1 < 65536 ∧ q.2.length < 65536 :=
      fun q hq => hwf q (by simp [hq])
    cases fuel with
    | zero => omega
    | succ f =>
      have hbody : pre ++ encAttrs ((t, v) :: rest)
          = pre ++ (t / 256 :: t % 256 :: v.length / 256 :: v.length % 256
              :: (v ++ (List.replicate (align4 v.length - v.length) 0 ++ encAttrs rest))) := by
        rw [encAttrs_cons]
        simp [encAttr, be16]
      have hlen : (pre ++ encAttrs ((t, v) :: rest)).length
          = pre.length + 4 + (v.length + (align4 v.length - v.length)
              + (encAttrs rest).length) := by
        rw [hbody]
        simp [List.length_append]
        omega
      rw [hbody]
      unfold attrsLoop
      rw [if_pos (by rw [← hbody, hlen]; omega)]
      rw [getD_append_self, getD_append_add, getD_append_add, getD_append_add]
      simp only [List.getD_cons_succ, List.getD_cons_zero]
      rw [show u16be (t / 256) (t % 256) = t by unfold u16be; omega,
        show u16be (v.length / 256) (v.length % 256) = v.length by unfold u16be; omega]
      have hregroup : pre ++ (t / 256 :: t % 256 :: v.length / 256 :: v.length % 256
            :: (v ++ (List.replicate (align4 v.length - v.length) 0 ++ encAttrs rest)))
          = (pre ++ [t / 256, t % 256, v.length / 256, v.length % 256])
              ++ (v ++ (List.replicate (align4 v.length - v.length) 0 ++ encAttrs rest)) := by
        simp [List.append_assoc]
      have hpre4 : (pre ++ [t / 256, t % 256, v.length / 256, v.length % 256]).length
          = pre.length + 4 := by
        simp
      have hslice : sliceGet (pre ++ (t / 256 :: t % 256 :: v.length / 256
            :: v.length % 256 :: (v ++ (List.replicate (align4 v.length - v.length) 0
              ++ encAttrs rest)))) (pre.length + 4) (pre.length + 4 + v.length)
          = some v := by
        rw [hregroup, ← hpre4]
        exact sliceGet_append _ v _
      simp only [hslice]
      by_cases hx : t = ATTR_XOR_MAPPED_ADDRESS
      · rw [if_pos hx]
        rw [show parseAttrs ((t, v) :: rest) tx = parse_xor_mapped v tx by
          unfold parseAttrs; rw [if_pos hx]]
      · rw [if_neg hx]
        by_cases hm : t = ATTR_MAPPED_ADDRESS
        · rw [if_pos hm]
          rw [show parseAttrs ((t, v) :: rest) tx = parse_mapped v by
            unfold parseAttrs; rw [if_neg hx, if_pos hm]]
        · rw [if_neg hm]
          rw [show parseAttrs ((t, v) :: rest) tx = parseAttrs rest tx by
            conv_lhs => unfold parseAttrs
            rw [if_neg hx, if_neg hm]]
          have hregroup2 : pre ++ (t / 256 :: t % 256 :: v.length / 256 :: v.length % 256
                :: (v ++ (List.replicate (align4 v.length - v.length) 0 ++ encAttrs rest)))
              = (pre ++ encAttr t v) ++ encAttrs rest := by
            simp [encAttr, be16, List.append_assoc]
          have hoff : pre.length + 4 + align4 v.length = (pre ++ encAttr t v).length := by
            rw [List.length_append, encAttr_length]
            omega
          rw [hregroup2, hoff]
          exact ih (pre ++ encAttr t v) f hwfr (by simpa using Nat.lt_of_succ_lt_succ hfuel)

/-- Claim C3 counterexample: a response carrying a MAPPED-ADDRESS attribute
(1.2.3.4:80) before a XOR-MAPPED-ADDRESS attribute (5.6.7.8:81) parses to
the MAPPED address, although a XOR-MAPPED-ADDRESS attribute is present in
the attribute list — contradicting the claim that XOR-MAPPED-ADDRESS wins
whenever present anywhere. -/
theorem c3_counterexample :
    parse_response
        (mkResponse (List.replicate 12 7)
          [(ATTR_MAPPED_ADDRESS, [0, 1, 0, 80, 1, 2, 3, 4]),
           (ATTR_XOR_MAPPED_ADDRESS,
             buildXorMapped (.v4 [5, 6, 7, 8]) 81 (List.replicate 12 7))])
        (List.replicate 12 7)
      = .ok ⟨.v4 [1, 2, 3, 4], 80⟩ ∧
    parse_xor_mapped (buildXorMapped (.v4 [5, 6, 7, 8]) 81 (List.replicate 12 7))
        (List.replicate 12 7)
      = .ok ⟨.v4 [5, 6, 7, 8], 81⟩ ∧
    (SocketAddr.mk (.v4 [1, 2, 3, 4]) 80) ≠ ⟨.v4 [5, 6, 7, 8], 81⟩ :=
  ⟨rfl, rfl, by decide⟩

/-- Claim C3 (amended): `parse_response` walks the attribute list in order
and returns the decode of the *first* attribute whose type is
XOR-MAPPED-ADDRESS (0x0020) or MAPPED-ADDRESS (0x0001); so
XOR-MAPPED-ADDRESS wins only when no MAPPED-ADDRESS precedes it, the
MAPPED-ADDRESS fallback applies when it comes first or no XOR-MAPPED-ADDRESS
is present, and a response with neither attribute is `Malformed`. -/
theorem c3_first_address_attr (tx : List Nat) (attrs : List (Nat × List Nat))
    (htx : tx.length = 12)
    (hwf : ∀ p ∈ attrs, p.1 < 65536 ∧ p.2.length < 65536)
    (hsize : (encAttrs attrs).length < 65536) :
    parse_response (mkResponse tx attrs) tx = parseAttrs attrs tx := by
  have hdata : mkResponse tx attrs
      = 1 :: 1 :: (encAttrs attrs).length / 256 :: (encAttrs attrs).length % 256
          :: 0x21 :: 0x12 :: 0xA4 :: 0x42 :: (tx ++ encAttrs attrs) := by
    simp [mkResponse, be16, cookieBytes]
  have hlen : (mkResponse tx attrs).length = 20 + (encAttrs attrs).length := by
    rw [hdata]
    simp [htx]
    omega
  unfold parse_response
  rw [if_neg (by rw [hlen, show HEADER_SIZE = 20 from rfl]; omega)]
  rw [if_neg (by
    rw [hdata]
    simp only [List.drop_succ_cons, List.drop_zero]
    rw [← htx, List.take_left]
    exact fun h => h rfl)]
  rw [hdata]
  simp only [List.getD_cons_succ, List.getD_cons_zero]
  rw [show u16be ((encAttrs attrs).length / 256) ((encAttrs attrs).length % 256)
      = (encAttrs attrs).length by unfold u16be; omega]
  have hregroup : (1 : Nat) :: 1 :: (encAttrs attrs).length / 256
        :: (encAttrs attrs).length % 256 :: 0x21 :: 0x12 :: 0xA4 :: 0x42
        :: (tx ++ encAttrs attrs)
      = ([1, 1, (encAttrs attrs).length / 256, (encAttrs attrs).length % 256,
          0x21, 0x12, 0xA4, 0x42] ++ tx) ++ (encAttrs attrs ++ []) := by
    simp [List.append_assoc]
  have hpre : (([1, 1, (encAttrs attrs).length / 256, (encAttrs attrs).length % 256,
      0x21, 0x12, 0xA4, 0x42] ++ tx) : List Nat).length = 20 := by
    simp [htx]
  have hslice : sliceGet (1 :: 1 :: (encAttrs attrs).length / 256
        :: (encAttrs attrs).length % 256 :: 0x21 :: 0x12 :: 0xA4 :: 0x42
        :: (tx ++ encAttrs attrs)) HEADER_SIZE (HEADER_SIZE + (encAttrs attrs).length)
      = some (encAttrs attrs) := by
    rw [hregroup, show HEADER_SIZE = (([1, 1, (encAttrs attrs).length / 256,
        (encAttrs attrs).length % 256, 0x21, 0x12, 0xA4, 0x42] ++ tx) : List Nat).length
      from hpre.symm]
    exact sliceGet_append _ _ _
  simp only [hslice]
  rw [show encAttrs attrs = [] ++ encAttrs attrs from rfl,
    show (0 : Nat) = ([] : List Nat).length from rfl]
  exact attrsLoop_enc tx attrs [] _ hwf
    (by simpa using Nat.lt_succ_of_le (encAttrs_length_ge attrs))

/-- Witness for `c3_first_address_attr`: a response whose attribute list is
an unknown attribute followed by a MAPPED-ADDRESS. -/
theorem c3_first_address_attr_witness :
    parse_response
        (mkResponse (List.replicate 12 7)
          [(0x8022, [1, 2]), (ATTR_MAPPED_ADDRESS, [0, 1, 0, 80, 1, 2, 3, 4])])
        (List.replicate 12 7)
      = parseAttrs [(0x8022, [1, 2]), (ATTR_MAPPED_ADDRESS, [0, 1, 0, 80, 1, 2, 3, 4])]
          (List.replicate 12 7) :=
  c3_first_address_attr (List.replicate 12 7)
    [(0x8022, [1, 2]), (ATTR_MAPPED_ADDRESS, [0, 1, 0, 80, 1, 2, 3, 4])]
    (by simp) (by decide) (by decide)

end Nyat
